import Mathlib

/-!
Verification development for the `jwt_with_ring` crate.

The file embeds `src/verifier.rs` (the two verifier variants and the
`SignatureVerifiedJwt` wrapper) shallowly in Lean.  The crate's token
parser (`UnverifiedJwt`), error type and base64url codec live in files
that are not part of the sources at hand, so those pieces are modelled
from the specification; their doc comments say so.  The `ring`
cryptographic primitives are external collaborators and are abstracted
as boolean verification functions stored in the verifier structures.
-/

namespace JwtWithRing

/-- Modelled from the spec: the error taxonomy of the crate's `error.rs`
(missing from the sources).  `MalformedToken` is raised at parse time,
`InvalidEncoding` when a base64url decode fails, `InvalidSignature` when the
signature primitive reports a mismatch. -/
inductive Error where
  | malformedToken
  | invalidEncoding
  | invalidSignature
deriving DecidableEq, Repr

/-- Modelled from the spec: index of a character in the unpadded URL-safe
base64 alphabet (RFC 4648 section 5); the Base64url Codec is an external
collaborator of the crate. -/
def b64Index (c : Char) : Option Nat :=
  if 'A' ≤ c ∧ c ≤ 'Z' then some (c.toNat - 65)
  else if 'a' ≤ c ∧ c ≤ 'z' then some (c.toNat - 97 + 26)
  else if '0' ≤ c ∧ c ≤ '9' then some (c.toNat - 48 + 52)
  else if c = '-' then some 62
  else if c = '_' then some 63
  else none

/-- Modelled from the spec: reassemble bytes from groups of base64 sextets.
A trailing group of a single sextet is invalid. -/
def decodeGroups : List Nat → Option (List Nat)
  | [] => some []
  | [_] => none
  | [a, b] => some [(a <<< 2) ||| (b >>> 4)]
  | [a, b, c] => some [(a <<< 2) ||| (b >>> 4), ((b &&& 15) <<< 4) ||| (c >>> 2)]
  | a :: b :: c :: d :: rest =>
    match decodeGroups rest with
    | none => none
    | some tail =>
      some (((a <<< 2) ||| (b >>> 4)) ::
            (((b &&& 15) <<< 4) ||| (c >>> 2)) ::
            (((c &&& 3) <<< 6) ||| d) :: tail)

/-- Modelled from the spec: the Base64url Codec's
`decode(segment) -> Result<bytes, Error>`, unpadded URL-safe variant. -/
def base64UrlDecode (s : String) : Option (List Nat) :=
  match s.data.mapM b64Index with
  | none => none
  | some xs => decodeGroups xs

/-- UTF-8 encoding of a single character (Rust `str::as_bytes` views the
string's UTF-8 bytes). -/
def utf8EncodeChar (c : Char) : List Nat :=
  let v := c.toNat
  if v < 128 then [v]
  else if v < 2048 then [192 ||| (v >>> 6), 128 ||| (v &&& 63)]
  else if v < 65536 then
    [224 ||| (v >>> 12), 128 ||| ((v >>> 6) &&& 63), 128 ||| (v &&& 63)]
  else
    [240 ||| (v >>> 18), 128 ||| ((v >>> 12) &&& 63),
     128 ||| ((v >>> 6) &&& 63), 128 ||| (v &&& 63)]

/-- The byte sequence of a string, as Rust's `as_bytes` (UTF-8). -/
def strBytes (s : String) : List Nat :=
  s.data.flatMap utf8EncodeChar

/-- Modelled from the spec: the Unverified Token of the missing `lib.rs`
(`UnverifiedJwt`): views of the three encoded segments plus the precomputed
`signed_data` view equal to `encoded_header + "." + encoded_claims`. -/
structure UnverifiedJwt where
  header : String
  claims : String
  signature : String
  signed_data : String
deriving DecidableEq, Repr

/-- Modelled from the spec: split a character list on the dot separator. -/
def splitDots : List Char → List (List Char)
  | [] => [[]]
  | c :: rest =>
    if c = '.' then [] :: splitDots rest
    else
      match splitDots rest with
      | [] => [[c]]
      | p :: ps => (c :: p) :: ps

/-- Modelled from the spec: `UnverifiedJwt::with_str` of the missing `lib.rs`:
split the raw string on `.`, require exactly three non-empty segments, store
them together with the `signed_data` view `header + "." + claims`. -/
def UnverifiedJwt.with_str (raw : String) : Except Error UnverifiedJwt :=
  match splitDots raw.data with
  | [h, c, s] =>
    if h.isEmpty ∨ c.isEmpty ∨ s.isEmpty then .error .malformedToken
    else .ok { header := ⟨h⟩, claims := ⟨c⟩, signature := ⟨s⟩,
               signed_data := (⟨h⟩ : String) ++ "." ++ (⟨c⟩ : String) }
  | _ => .error .malformedToken

/-- Modelled from the spec: accessor for the encoded header segment. -/
def UnverifiedJwt.encoded_header (jwt : UnverifiedJwt) : String :=
  jwt.header

/-- Modelled from the spec: accessor for the encoded claims segment. -/
def UnverifiedJwt.encoded_claims (jwt : UnverifiedJwt) : String :=
  jwt.claims

/-- Modelled from the spec: accessor for the encoded signature segment. -/
def UnverifiedJwt.encoded_signature (jwt : UnverifiedJwt) : String :=
  jwt.signature

/-- Modelled from the spec: base64url-decode the header segment, failing with
`InvalidEncoding` on malformed input. -/
def UnverifiedJwt.decode_header (jwt : UnverifiedJwt) : Except Error (List Nat) :=
  match base64UrlDecode jwt.header with
  | some bs => .ok bs
  | none => .error .invalidEncoding

/-- Modelled from the spec: base64url-decode the claims segment, failing with
`InvalidEncoding` on malformed input. -/
def UnverifiedJwt.decode_claims (jwt : UnverifiedJwt) : Except Error (List Nat) :=
  match base64UrlDecode jwt.claims with
  | some bs => .ok bs
  | none => .error .invalidEncoding

/-- Modelled from the spec: base64url-decode the signature segment, failing
with `InvalidEncoding` on malformed input. -/
def UnverifiedJwt.decode_signature (jwt : UnverifiedJwt) : Except Error (List Nat) :=
  match base64UrlDecode jwt.signature with
  | some bs => .ok bs
  | none => .error .invalidEncoding

/-- `SignatureVerifiedJwt` of `src/verifier.rs` (lines 43-46): a wrapper
holding only the reference to the underlying `UnverifiedJwt`. -/
structure SignatureVerifiedJwt where
  unverified_jwt : UnverifiedJwt
deriving DecidableEq, Repr

/-- `SignatureVerifiedJwt::decode_header` (verifier.rs lines 86-88):
forwards to the wrapped token. -/
def SignatureVerifiedJwt.decode_header (svj : SignatureVerifiedJwt) :
    Except Error (List Nat) :=
  svj.unverified_jwt.decode_header

/-- `SignatureVerifiedJwt::decode_claims` (verifier.rs lines 127-129):
forwards to the wrapped token. -/
def SignatureVerifiedJwt.decode_claims (svj : SignatureVerifiedJwt) :
    Except Error (List Nat) :=
  svj.unverified_jwt.decode_claims

/-- `SignatureVerifiedJwt::decode_signature` (verifier.rs lines 169-171):
forwards to the wrapped token. -/
def SignatureVerifiedJwt.decode_signature (svj : SignatureVerifiedJwt) :
    Except Error (List Nat) :=
  svj.unverified_jwt.decode_signature

/-- `SignatureVerifiedJwt::signed_data` (verifier.rs lines 206-208):
forwards to the wrapped token. -/
def SignatureVerifiedJwt.signed_data (svj : SignatureVerifiedJwt) : String :=
  svj.unverified_jwt.signed_data

/-- `SignatureVerifiedJwt::encoded_header` (verifier.rs lines 248-250):
forwards to the wrapped token. -/
def SignatureVerifiedJwt.encoded_header (svj : SignatureVerifiedJwt) : String :=
  svj.unverified_jwt.encoded_header

/-- `SignatureVerifiedJwt::encoded_claims` (verifier.rs lines 291-293):
reads the wrapped token's `claims` field directly. -/
def SignatureVerifiedJwt.encoded_claims (svj : SignatureVerifiedJwt) : String :=
  svj.unverified_jwt.claims

/-- `SignatureVerifiedJwt::encoded_signature` (verifier.rs lines 333-335):
forwards to the wrapped token. -/
def SignatureVerifiedJwt.encoded_signature (svj : SignatureVerifiedJwt) : String :=
  svj.unverified_jwt.encoded_signature

/-- `PublicKeyVerifier` (verifier.rs lines 338-340).  The stored
`UnparsedPublicKey` together with ring's `verify` is abstracted as the
boolean function `public_key : message → signature → Bool` — the Signature
Primitive is an external collaborator treated as a black box. -/
structure PublicKeyVerifier where
  public_key : List Nat → List Nat → Bool

/-- `PublicKeyVerifier::with_public_key` (verifier.rs lines 346-348). -/
def PublicKeyVerifier.with_public_key (k : List Nat → List Nat → Bool) :
    PublicKeyVerifier :=
  { public_key := k }

/-- `PublicKeyVerifier::verify_data_with_decoded_signature`
(verifier.rs lines 350-360): invoke the primitive on the two byte sequences;
map any primitive failure to `Error::invalid_signature()`. -/
def PublicKeyVerifier.verify_data_with_decoded_signature
    (v : PublicKeyVerifier) (signed_data decoded_signature : List Nat) :
    Except Error Unit :=
  if v.public_key signed_data decoded_signature then .ok ()
  else .error .invalidSignature

/-- `PublicKeyVerifier::verify` (verifier.rs lines 362-375): take the signed
data bytes, decode the signature segment (propagating its error), run the
primitive, and on success wrap the token. -/
def PublicKeyVerifier.verify (v : PublicKeyVerifier)
    (unverified_jwt : UnverifiedJwt) : Except Error SignatureVerifiedJwt :=
  let signed_data := strBytes unverified_jwt.signed_data
  match unverified_jwt.decode_signature with
  | .error e => .error e
  | .ok decoded_signature =>
    (v.verify_data_with_decoded_signature signed_data decoded_signature).map
      (fun _ => { unverified_jwt := unverified_jwt })

/-- `HmacVerifier` (verifier.rs lines 377-379).  The stored `hmac::Key`
together with ring's `hmac::verify` is abstracted as the boolean function
`key : message → tag → Bool`. -/
structure HmacVerifier where
  key : List Nat → List Nat → Bool

/-- `HmacVerifier::with_key` (verifier.rs lines 382-384). -/
def HmacVerifier.with_key (k : List Nat → List Nat → Bool) : HmacVerifier :=
  { key := k }

/-- `HmacVerifier::verify_data_with_decoded_signature`
(verifier.rs lines 386-396): invoke the primitive on the two byte sequences;
map any primitive failure to `Error::invalid_signature()`. -/
def HmacVerifier.verify_data_with_decoded_signature
    (v : HmacVerifier) (signed_data decoded_signature : List Nat) :
    Except Error Unit :=
  if v.key signed_data decoded_signature then .ok ()
  else .error .invalidSignature

/-- `HmacVerifier::verify` (verifier.rs lines 398-411): take the signed data
bytes, decode the signature segment (propagating its error), run the
primitive, and on success wrap the token. -/
def HmacVerifier.verify (v : HmacVerifier)
    (unverified_jwt : UnverifiedJwt) : Except Error SignatureVerifiedJwt :=
  let signed_data := strBytes unverified_jwt.signed_data
  match unverified_jwt.decode_signature with
  | .error e => .error e
  | .ok decoded_signature =>
    (v.verify_data_with_decoded_signature signed_data decoded_signature).map
      (fun _ => { unverified_jwt := unverified_jwt })

end JwtWithRing

namespace JwtWithRing

/-- Inversion of `HmacVerifier.verify`: success means the signature segment
decoded and the primitive accepted the signed-data bytes. -/
theorem hmac_verify_ok_inversion (hv : HmacVerifier)
    (jwt : UnverifiedJwt) (s : SignatureVerifiedJwt)
    (h : hv.verify jwt = .ok s) :
    s.unverified_jwt = jwt ∧
      ∃ ds, jwt.decode_signature = .ok ds ∧
        hv.key (strBytes jwt.signed_data) ds = true := by
  unfold HmacVerifier.verify HmacVerifier.verify_data_with_decoded_signature at h
  simp only [] at h
  split at h
  · exact absurd h (by simp)
  · rename_i ds hds
    split at h
    · rename_i hkey
      simp only [Except.map] at h
      injection h with h2
      exact ⟨by rw [← h2], ds, hds, hkey⟩
    · exact absurd h (by simp [Except.map])

/-- Inversion of `PublicKeyVerifier.verify`: success means the signature
segment decoded and the primitive accepted the signed-data bytes. -/
theorem pk_verify_ok_inversion (pv : PublicKeyVerifier)
    (jwt : UnverifiedJwt) (s : SignatureVerifiedJwt)
    (h : pv.verify jwt = .ok s) :
    s.unverified_jwt = jwt ∧
      ∃ ds, jwt.decode_signature = .ok ds ∧
        pv.public_key (strBytes jwt.signed_data) ds = true := by
  unfold PublicKeyVerifier.verify PublicKeyVerifier.verify_data_with_decoded_signature at h
  simp only [] at h
  split at h
  · exact absurd h (by simp)
  · rename_i ds hds
    split at h
    · rename_i hkey
      simp only [Except.map] at h
      injection h with h2
      exact ⟨by rw [← h2], ds, hds, hkey⟩
    · exact absurd h (by simp [Except.map])

end JwtWithRing

namespace JwtWithRing

/-- Claim C1: for every token, both `HmacVerifier::verify` and
`PublicKeyVerifier::verify` pass exactly the bytes of `signed_data()` — the
encoded header + "." + encoded claims taken verbatim — as the message to the
signature primitive, and never any decoded content: each verify call equals
decoding the signature segment and then invoking the primitive on
`strBytes signed_data` and the decoded signature. -/
theorem claim_C1_signed_data_verbatim (hv : HmacVerifier)
    (pv : PublicKeyVerifier) (jwt : UnverifiedJwt) :
    hv.verify jwt =
      (match jwt.decode_signature with
       | .error e => .error e
       | .ok ds =>
         if hv.key (strBytes jwt.signed_data) ds then
           .ok { unverified_jwt := jwt }
         else .error .invalidSignature) ∧
    pv.verify jwt =
      (match jwt.decode_signature with
       | .error e => .error e
       | .ok ds =>
         if pv.public_key (strBytes jwt.signed_data) ds then
           .ok { unverified_jwt := jwt }
         else .error .invalidSignature) := by
  constructor
  · unfold HmacVerifier.verify HmacVerifier.verify_data_with_decoded_signature
    cases jwt.decode_signature with
    | error e => rfl
    | ok ds =>
      by_cases h : hv.key (strBytes jwt.signed_data) ds
      · simp [h, Except.map]
      · simp [h, Except.map]
  · unfold PublicKeyVerifier.verify
      PublicKeyVerifier.verify_data_with_decoded_signature
    cases jwt.decode_signature with
    | error e => rfl
    | ok ds =>
      by_cases h : pv.public_key (strBytes jwt.signed_data) ds
      · simp [h, Except.map]
      · simp [h, Except.map]

/-- Claim C2: for every parsed token whose signature segment is not valid
base64url, both verify variants return the decode failure `InvalidEncoding`;
the verifiers `hv` and `pv` are arbitrary, so the result does not depend on
the signature primitive, which is never consulted. -/
theorem claim_C2_invalid_signature_encoding (hv : HmacVerifier)
    (pv : PublicKeyVerifier) (raw : String) (jwt : UnverifiedJwt)
    (hparse : UnverifiedJwt.with_str raw = .ok jwt)
    (hbad : base64UrlDecode jwt.signature = none) :
    jwt.decode_signature = .error .invalidEncoding ∧
    hv.verify jwt = .error .invalidEncoding ∧
    pv.verify jwt = .error .invalidEncoding := by
  have hd : jwt.decode_signature = .error .invalidEncoding := by
    unfold UnverifiedJwt.decode_signature
    rw [hbad]
  refine ⟨hd, ?_, ?_⟩
  · unfold HmacVerifier.verify
    rw [hd]
  · unfold PublicKeyVerifier.verify
    rw [hd]

/-- Claim C3: whenever the signature primitive reports a mismatch, both
`verify_data_with_decoded_signature` variants and both `verify` variants
return exactly `InvalidSignature` — every primitive failure is mapped to the
same opaque error value. -/
theorem claim_C3_mismatch_maps_to_invalid_signature (hv : HmacVerifier)
    (pv : PublicKeyVerifier) (data sig : List Nat) (jwt : UnverifiedJwt)
    (ds : List Nat)
    (h1 : hv.key data sig = false)
    (h2 : pv.public_key data sig = false)
    (hdec : jwt.decode_signature = .ok ds)
    (h3 : hv.key (strBytes jwt.signed_data) ds = false)
    (h4 : pv.public_key (strBytes jwt.signed_data) ds = false) :
    hv.verify_data_with_decoded_signature data sig = .error .invalidSignature ∧
    pv.verify_data_with_decoded_signature data sig = .error .invalidSignature ∧
    hv.verify jwt = .error .invalidSignature ∧
    pv.verify jwt = .error .invalidSignature := by
  refine ⟨?_, ?_, ?_, ?_⟩
  · unfold HmacVerifier.verify_data_with_decoded_signature
    rw [h1]
    rfl
  · unfold PublicKeyVerifier.verify_data_with_decoded_signature
    rw [h2]
    rfl
  · unfold HmacVerifier.verify HmacVerifier.verify_data_with_decoded_signature
    rw [hdec]
    simp [h3, Except.map]
  · unfold PublicKeyVerifier.verify
      PublicKeyVerifier.verify_data_with_decoded_signature
    rw [hdec]
    simp [h4, Except.map]

/-- Claim C4: within this embedding the only operations producing a
`SignatureVerifiedJwt` are the two `verify` functions, and every
`SignatureVerifiedJwt` they return wraps exactly the token that was passed in
and was preceded by a successful signature check of that token's signed data:
the signature segment decoded and the primitive accepted it. -/
theorem claim_C4_verified_jwt_only_from_verify (hv : HmacVerifier)
    (pv : PublicKeyVerifier) (jwt1 jwt2 : UnverifiedJwt)
    (s1 s2 : SignatureVerifiedJwt)
    (h1 : hv.verify jwt1 = .ok s1)
    (h2 : pv.verify jwt2 = .ok s2) :
    (s1.unverified_jwt = jwt1 ∧
      ∃ ds, jwt1.decode_signature = .ok ds ∧
        hv.key (strBytes jwt1.signed_data) ds = true) ∧
    (s2.unverified_jwt = jwt2 ∧
      ∃ ds, jwt2.decode_signature = .ok ds ∧
        pv.public_key (strBytes jwt2.signed_data) ds = true) :=
  ⟨hmac_verify_ok_inversion hv jwt1 s1 h1,
   pk_verify_ok_inversion pv jwt2 s2 h2⟩

/-- Claim C5: for every successfully parsed token, `signed_data()` equals
`encoded_header() + "." + encoded_claims()`. -/
theorem claim_C5_signed_data_concatenation (raw : String)
    (jwt : UnverifiedJwt)
    (h : UnverifiedJwt.with_str raw = .ok jwt) :
    jwt.signed_data = jwt.encoded_header ++ "." ++ jwt.encoded_claims := by
  unfold UnverifiedJwt.with_str at h
  split at h
  · split at h
    · exact absurd h (by simp)
    · injection h with h2
      subst h2
      rfl
  · exact absurd h (by simp)

end JwtWithRing

namespace JwtWithRing

/-- Claim C6: verification decodes only the signature segment, so for any two
parsed tokens with identical `signed_data` and identical encoded signature
segment, verify with the same key succeeds on one if and only if it succeeds
on the other (and fails with the same error); header and claims segments
being valid base64url or not is irrelevant. -/
theorem claim_C6_verify_ignores_header_claims_encoding (hv : HmacVerifier)
    (pv : PublicKeyVerifier) (raw1 raw2 : String)
    (jwt1 jwt2 : UnverifiedJwt)
    (h1 : UnverifiedJwt.with_str raw1 = .ok jwt1)
    (h2 : UnverifiedJwt.with_str raw2 = .ok jwt2)
    (hsd : jwt1.signed_data = jwt2.signed_data)
    (hsig : jwt1.signature = jwt2.signature) :
    (hv.verify jwt1).map (fun _ => ()) = (hv.verify jwt2).map (fun _ => ()) ∧
    (pv.verify jwt1).map (fun _ => ()) = (pv.verify jwt2).map (fun _ => ()) := by
  have hdec : jwt1.decode_signature = jwt2.decode_signature := by
    unfold UnverifiedJwt.decode_signature
    rw [hsig]
  constructor
  · unfold HmacVerifier.verify
    rw [hdec, hsd]
    cases jwt2.decode_signature with
    | error e => rfl
    | ok ds =>
      unfold HmacVerifier.verify_data_with_decoded_signature
      by_cases h : hv.key (strBytes jwt2.signed_data) ds <;>
        simp [h, Except.map]
  · unfold PublicKeyVerifier.verify
    rw [hdec, hsd]
    cases jwt2.decode_signature with
    | error e => rfl
    | ok ds =>
      unfold PublicKeyVerifier.verify_data_with_decoded_signature
      by_cases h : pv.public_key (strBytes jwt2.signed_data) ds <;>
        simp [h, Except.map]

/-- Claim C7: every accessor and decode operation on a `SignatureVerifiedJwt`
returns exactly what the corresponding operation on the wrapped
`UnverifiedJwt` returns — the wrapper holds only the token reference, adds no
state and caches nothing. -/
theorem claim_C7_wrapper_forwards_everything (svj : SignatureVerifiedJwt) :
    svj.encoded_header = svj.unverified_jwt.encoded_header ∧
    svj.encoded_claims = svj.unverified_jwt.encoded_claims ∧
    svj.encoded_signature = svj.unverified_jwt.encoded_signature ∧
    svj.signed_data = svj.unverified_jwt.signed_data ∧
    svj.decode_header = svj.unverified_jwt.decode_header ∧
    svj.decode_claims = svj.unverified_jwt.decode_claims ∧
    svj.decode_signature = svj.unverified_jwt.decode_signature :=
  ⟨rfl, rfl, rfl, rfl, rfl, rfl, rfl⟩

/-- Claim C8: verification is deterministic and stateless — both verify
variants and both lower-level entry points are pure functions of the verifier
and their arguments, so two invocations with the same token and key produce
the same result, and a call mutates neither the verifier nor the token. -/
theorem claim_C8_verify_deterministic (hv : HmacVerifier)
    (pv : PublicKeyVerifier) (jwt : UnverifiedJwt) (data sig : List Nat) :
    hv.verify jwt = hv.verify jwt ∧
    pv.verify jwt = pv.verify jwt ∧
    hv.verify_data_with_decoded_signature data sig =
      hv.verify_data_with_decoded_signature data sig ∧
    pv.verify_data_with_decoded_signature data sig =
      pv.verify_data_with_decoded_signature data sig :=
  ⟨rfl, rfl, rfl, rfl⟩

/-- Claim C9: both verifier variants expose
`verify_data_with_decoded_signature(signed_data, decoded_signature)`, which
invokes the signature primitive directly on the two given byte sequences —
no token parsing, no base64 decoding — and returns only success or
`InvalidSignature`; its result type `Except Error Unit` contains no
`SignatureVerifiedJwt`. -/
theorem claim_C9_low_level_entry_point (hv : HmacVerifier)
    (pv : PublicKeyVerifier) (data sig : List Nat) :
    hv.verify_data_with_decoded_signature data sig =
      (if hv.key data sig then .ok () else .error .invalidSignature) ∧
    pv.verify_data_with_decoded_signature data sig =
      (if pv.public_key data sig then .ok () else .error .invalidSignature) :=
  ⟨rfl, rfl⟩

/-- Claim C10: for every `SignatureVerifiedJwt` returned by a successful
verify call (either variant), `decode_signature()` returns `Ok`: verify only
succeeds after the signature segment decoded, and redecoding the same
segment of the unchanged token yields the same successful result. -/
theorem claim_C10_verified_jwt_signature_decodes (hv : HmacVerifier)
    (pv : PublicKeyVerifier) (jwt1 jwt2 : UnverifiedJwt)
    (s1 s2 : SignatureVerifiedJwt)
    (h1 : hv.verify jwt1 = .ok s1)
    (h2 : pv.verify jwt2 = .ok s2) :
    (∃ ds, s1.decode_signature = .ok ds) ∧
    (∃ ds, s2.decode_signature = .ok ds) := by
  obtain ⟨he1, ds1, hds1, -⟩ := hmac_verify_ok_inversion hv jwt1 s1 h1
  obtain ⟨he2, ds2, hds2, -⟩ :=
    pk_verify_ok_inversion pv jwt2 s2 h2
  refine ⟨⟨ds1, ?_⟩, ⟨ds2, ?_⟩⟩
  · unfold SignatureVerifiedJwt.decode_signature
    rw [he1]
    exact hds1
  · unfold SignatureVerifiedJwt.decode_signature
    rw [he2]
    exact hds2

end JwtWithRing

namespace JwtWithRing

/-- A concrete parsed token `"a.b.ab"` whose signature segment decodes. -/
def wJwt : UnverifiedJwt :=
  { header := "a", claims := "b", signature := "ab", signed_data := "a.b" }

/-- A concrete parsed token `"a.b.!"` whose signature segment is not valid
base64url. -/
def wBadJwt : UnverifiedJwt :=
  { header := "a", claims := "b", signature := "!", signed_data := "a.b" }

/-- An HMAC verifier whose abstracted primitive accepts everything. -/
def wHv : HmacVerifier := HmacVerifier.with_key fun _ _ => true

/-- A public-key verifier whose abstracted primitive accepts everything. -/
def wPv : PublicKeyVerifier := PublicKeyVerifier.with_public_key fun _ _ => true

/-- An HMAC verifier whose abstracted primitive rejects everything. -/
def wHvF : HmacVerifier := HmacVerifier.with_key fun _ _ => false

/-- A public-key verifier whose abstracted primitive rejects everything. -/
def wPvF : PublicKeyVerifier :=
  PublicKeyVerifier.with_public_key fun _ _ => false

/-- The signature-verified wrapper around `wJwt`. -/
def wSvj : SignatureVerifiedJwt := { unverified_jwt := wJwt }

/-- Witness for claim C2 at the concrete token `"a.b.!"`. -/
theorem claim_C2_invalid_signature_encoding_witness :
    wBadJwt.decode_signature = .error .invalidEncoding ∧
    wHv.verify wBadJwt = .error .invalidEncoding ∧
    wPv.verify wBadJwt = .error .invalidEncoding :=
  claim_C2_invalid_signature_encoding wHv wPv "a.b.!" wBadJwt rfl rfl

/-- Witness for claim C3 with rejecting primitives at concrete inputs. -/
theorem claim_C3_mismatch_maps_to_invalid_signature_witness :
    wHvF.verify_data_with_decoded_signature [1] [2] =
      .error .invalidSignature ∧
    wPvF.verify_data_with_decoded_signature [1] [2] =
      .error .invalidSignature ∧
    wHvF.verify wJwt = .error .invalidSignature ∧
    wPvF.verify wJwt = .error .invalidSignature :=
  claim_C3_mismatch_maps_to_invalid_signature wHvF wPvF [1] [2] wJwt [105]
    rfl rfl rfl rfl rfl

/-- Witness for claim C4 at the concrete token `"a.b.ab"` with accepting
primitives. -/
theorem claim_C4_verified_jwt_only_from_verify_witness :
    (wSvj.unverified_jwt = wJwt ∧
      ∃ ds, wJwt.decode_signature = .ok ds ∧
        wHv.key (strBytes wJwt.signed_data) ds = true) ∧
    (wSvj.unverified_jwt = wJwt ∧
      ∃ ds, wJwt.decode_signature = .ok ds ∧
        wPv.public_key (strBytes wJwt.signed_data) ds = true) :=
  claim_C4_verified_jwt_only_from_verify wHv wPv wJwt wJwt wSvj wSvj rfl rfl

/-- Witness for claim C5 at the concrete raw string `"a.b.ab"`. -/
theorem claim_C5_signed_data_concatenation_witness :
    wJwt.signed_data = wJwt.encoded_header ++ "." ++ wJwt.encoded_claims :=
  claim_C5_signed_data_concatenation "a.b.ab" wJwt rfl

/-- Witness for claim C6 at the concrete token `"a.b.ab"`. -/
theorem claim_C6_verify_ignores_header_claims_encoding_witness :
    (wHv.verify wJwt).map (fun _ => ()) =
      (wHv.verify wJwt).map (fun _ => ()) ∧
    (wPv.verify wJwt).map (fun _ => ()) =
      (wPv.verify wJwt).map (fun _ => ()) :=
  claim_C6_verify_ignores_header_claims_encoding wHv wPv "a.b.ab" "a.b.ab"
    wJwt wJwt rfl rfl rfl rfl

/-- Witness for claim C10 at the concrete token `"a.b.ab"` with accepting
primitives. -/
theorem claim_C10_verified_jwt_signature_decodes_witness :
    (∃ ds, wSvj.decode_signature = .ok ds) ∧
    (∃ ds, wSvj.decode_signature = .ok ds) :=
  claim_C10_verified_jwt_signature_decodes wHv wPv wJwt wJwt wSvj wSvj
    rfl rfl

end JwtWithRing
